/-
Verification development for the CIVIL truth-record sealing and
verification engine (frontend repository).

The development shallowly embeds, in Lean 4:
  * a JSON value model with JavaScript JSON.stringify semantics
    (compact and two-space-indented), used by the public verification
    page (src/unnamed/part_004) and by the canonicalizer contract;
  * UTF-8 encoding and a full SHA-256 implementation, modelling the
    Web Crypto digest primitive used by the file-upload component
    (src/unnamed/part_002) and the sealing digest engine;
  * the sealing / verification pipeline of spec sections 4.5 and 4.6
    (the server side lives in Supabase edge functions outside this
    repository, so it is modelled from the spec);
  * the fetch wrappers of src/frontend/src/services/api.ts and
    api-edge.ts, the record-creation form validation of
    CreateRecordForm.tsx, the file-batch processing of the FileUpload
    component, and the VerificationBundle wire shape of the shared
    type definitions.

Theorems named C1_... through C10_... settle the corresponding claims.
-/
import Mathlib

set_option maxRecDepth 4096

/-! ## JSON value model

`Json` mirrors the JSON values manipulated by the frontend.  Arrays
and objects are built with their own cons/nil constructors inside the
single inductive, so every serializer below is a plain structural
recursion that the kernel can evaluate on concrete values.  An array
is an `arrNil`-terminated `arrCons` chain; an object is an
`objNil`-terminated `objCons` chain of key/value pairs. -/

inductive Json where
  | str (s : String)
  | num (n : Int)
  | jsonBool (b : Bool)
  | null
  | arrNil
  | arrCons (hd tl : Json)
  | objNil
  | objCons (key : String) (val tl : Json)
deriving DecidableEq

/-- Hex digit character (lowercase), as produced by JavaScript
`Number.prototype.toString(16)`. -/
def hexChar (n : Nat) : Char :=
  if n < 10 then Char.ofNat (48 + n) else Char.ofNat (87 + n)

/-- Escape one character the way `JSON.stringify` escapes characters
inside string literals. -/
def escapeJsonChar (c : Char) : String :=
  if c = '"' then "\\\""
  else if c = '\\' then "\\\\"
  else if c = Char.ofNat 8 then "\\b"
  else if c = Char.ofNat 9 then "\\t"
  else if c = Char.ofNat 10 then "\\n"
  else if c = Char.ofNat 12 then "\\f"
  else if c = Char.ofNat 13 then "\\r"
  else if c.toNat < 32 then
    "\\u00" ++ String.mk [hexChar (c.toNat / 16), hexChar (c.toNat % 16)]
  else String.mk [c]

/-- A JSON string literal: quoted and escaped as `JSON.stringify` does. -/
def quoteJson (s : String) : String :=
  "\"" ++ String.join (s.data.map escapeJsonChar) ++ "\""

/-- Render a JSON number.  The model restricts numbers to integers,
which JavaScript renders without a decimal point. -/
def renderNum (n : Int) : String := toString n

def jsonLBrace : String := "\x7b"
def jsonRBrace : String := "\x7d"

/-! ### Compact serialization: `JSON.stringify(v)` (no whitespace). -/

/-- Compact serializer core.  The flag distinguishes rendering a value
(`true`) from rendering the remaining elements of an array or object
chain (`false`, each element preceded by a comma). -/
def stringifyCompactAux : Bool → Json → String
  | true, .str s => quoteJson s
  | true, .num n => renderNum n
  | true, .jsonBool b => cond b "true" "false"
  | true, .null => "null"
  | true, .arrNil => "[]"
  | true, .arrCons hd tl =>
      "[" ++ stringifyCompactAux true hd ++ stringifyCompactAux false tl ++ "]"
  | true, .objNil => jsonLBrace ++ jsonRBrace
  | true, .objCons k v tl =>
      jsonLBrace ++ quoteJson k ++ ":" ++ stringifyCompactAux true v ++
        stringifyCompactAux false tl ++ jsonRBrace
  | false, .arrCons hd tl =>
      "," ++ stringifyCompactAux true hd ++ stringifyCompactAux false tl
  | false, .objCons k v tl =>
      "," ++ quoteJson k ++ ":" ++ stringifyCompactAux true v ++
        stringifyCompactAux false tl
  | false, _ => ""

/-- Compact serialization `JSON.stringify(v)`: no insignificant
whitespace. -/
def stringifyCompact (v : Json) : String := stringifyCompactAux true v

/-! ### Indented serialization: `JSON.stringify(v, null, 2)`. -/

/-- A run of `n` spaces. -/
def spaces (n : Nat) : String := String.mk (List.replicate n ' ')

/-- Indented serializer core.  `d` is the nesting depth of the value
being rendered (its members are indented `2 * (d + 1)` spaces); the
flag again distinguishes a value (`true`) from the remaining chain
elements (`false`, each preceded by a comma and a newline). -/
def stringifyIndentAux : Bool → Nat → Json → String
  | true, _, .str s => quoteJson s
  | true, _, .num n => renderNum n
  | true, _, .jsonBool b => cond b "true" "false"
  | true, _, .null => "null"
  | true, _, .arrNil => "[]"
  | true, d, .arrCons hd tl =>
      "[\n" ++ spaces (2 * (d + 1)) ++ stringifyIndentAux true (d + 1) hd ++
        stringifyIndentAux false (d + 1) tl ++ "\n" ++ spaces (2 * d) ++ "]"
  | true, _, .objNil => jsonLBrace ++ jsonRBrace
  | true, d, .objCons k v tl =>
      jsonLBrace ++ "\n" ++ spaces (2 * (d + 1)) ++ quoteJson k ++ ": " ++
        stringifyIndentAux true (d + 1) v ++ stringifyIndentAux false (d + 1) tl ++
        "\n" ++ spaces (2 * d) ++ jsonRBrace
  | false, d, .arrCons hd tl =>
      ",\n" ++ spaces (2 * d) ++ stringifyIndentAux true d hd ++
        stringifyIndentAux false d tl
  | false, d, .objCons k v tl =>
      ",\n" ++ spaces (2 * d) ++ quoteJson k ++ ": " ++
        stringifyIndentAux true d v ++ stringifyIndentAux false d tl
  | false, _, _ => ""

/-- Pretty serialization `JSON.stringify(v, null, 2)` as used by the
verification page. -/
def stringifyPretty (v : Json) : String := stringifyIndentAux true 0 v

/-! ### Recursive key sorting (the canonicalizer's key order). -/

/-- Lexicographic comparison of character lists by code point, the
order JavaScript string comparison induces on the BMP. -/
def charListLe : List Char → List Char → Bool
  | [], _ => true
  | _ :: _, [] => false
  | c1 :: t1, c2 :: t2 =>
      if c1.toNat < c2.toNat then true
      else if c2.toNat < c1.toNat then false
      else charListLe t1 t2

/-- Lexicographic string order used for key sorting. -/
def strLe (a b : String) : Bool := charListLe a.data b.data

/-- Insert a key/value pair into a key-sorted object chain, keeping
keys in nondecreasing lexicographic order. -/
def insertField (k : String) (v : Json) : Json → Json
  | .objCons k2 v2 tl =>
      if strLe k k2 then .objCons k v (.objCons k2 v2 tl)
      else .objCons k2 v2 (insertField k v tl)
  | other => .objCons k v other

/-- Sort all object keys lexicographically at every nesting level
(spec section 3, CanonicalForm rule 2). -/
def sortKeysRec : Json → Json
  | .arrCons hd tl => .arrCons (sortKeysRec hd) (sortKeysRec tl)
  | .objCons k v tl => insertField k (sortKeysRec v) (sortKeysRec tl)
  | other => other

/-- Top-level key list of a JSON object chain (in serialization
order). -/
def topKeys : Json → List String
  | .objCons k _ tl => k :: topKeys tl
  | _ => []

/-! ## UTF-8 encoding and SHA-256

`crypto.subtle.digest('SHA-256', ...)` (Web Crypto) and the hashing of
canonical JSON text are modelled by a complete SHA-256 implementation
over byte lists, with 32-bit words represented as naturals reduced
modulo `2 ^ 32`. -/

/-- Truncate to a 32-bit word. -/
def w32 (n : Nat) : Nat := n % 4294967296

/-- Right-rotation of a 32-bit word. -/
def rotr (n x : Nat) : Nat := w32 ((x >>> n) ||| (x <<< (32 - n)))

def shaCh (x y z : Nat) : Nat := (x &&& y) ^^^ ((4294967295 - w32 x) &&& z)

def shaMaj (x y z : Nat) : Nat := (x &&& y) ^^^ (x &&& z) ^^^ (y &&& z)

def bigSigma0 (x : Nat) : Nat := rotr 2 x ^^^ rotr 13 x ^^^ rotr 22 x

def bigSigma1 (x : Nat) : Nat := rotr 6 x ^^^ rotr 11 x ^^^ rotr 25 x

def smallSigma0 (x : Nat) : Nat := rotr 7 x ^^^ rotr 18 x ^^^ (x >>> 3)

def smallSigma1 (x : Nat) : Nat := rotr 17 x ^^^ rotr 19 x ^^^ (x >>> 10)

/-- The SHA-256 round constants (FIPS 180-4 section 4.2.2), written in
decimal. -/
def shaK : List Nat :=
  [1116352408, 1899447441, 3049323471, 3921009573,
   961987163, 1508970993, 2453635748, 2870763221,
   3624381080, 310598401, 607225278, 1426881987,
   1925078388, 2162078206, 2614888103, 3248222580,
   3835390401, 4022224774, 264347078, 604807628,
   770255983, 1249150122, 1555081692, 1996064986,
   2554220882, 2821834349, 2952996808, 3210313671,
   3336571891, 3584528711, 113926993, 338241895,
   666307205, 773529912, 1294757372, 1396182291,
   1695183700, 1986661051, 2177026350, 2456956037,
   2730485921, 2820302411, 3259730800, 3345764771,
   3516065817, 3600352804, 4094571909, 275423344,
   430227734, 506948616, 659060556, 883997877,
   958139571, 1322822218, 1537002063, 1747873779,
   1955562222, 2024104815, 2227730452, 2361852424,
   2428436474, 2756734187, 3204031479, 3329325298]

/-- SHA-256 working state: the eight 32-bit registers. -/
structure Sha256State where
  a : Nat
  b : Nat
  c : Nat
  d : Nat
  e : Nat
  f : Nat
  g : Nat
  h : Nat

/-- The SHA-256 initial hash value (FIPS 180-4 section 5.3.3),
written in decimal. -/
def shaInit : Sha256State :=
  ⟨1779033703, 3144134277, 1013904242, 2773480762,
   1359893119, 2600822924, 528734635, 1541459225⟩

/-- One compression round with round constant `k` and schedule word `w`. -/
def shaRound (st : Sha256State) (k w : Nat) : Sha256State :=
  let t1 := w32 (st.h + bigSigma1 st.e + shaCh st.e st.f st.g + k + w)
  let t2 := w32 (bigSigma0 st.a + shaMaj st.a st.b st.c)
  ⟨w32 (t1 + t2), st.a, st.b, st.c, w32 (st.d + t1), st.e, st.f, st.g⟩

/-- Big-endian 32-bit word from four bytes. -/
def wordOfBytes : List Nat → Nat
  | [b0, b1, b2, b3] => w32 (b0 * 16777216 + b1 * 65536 + b2 * 256 + b3)
  | _ => 0

/-- Split a list into chunks of `k` elements (fuelled, hence
kernel-reducible). -/
def chunksAux (k : Nat) : Nat → List Nat → List (List Nat)
  | 0, _ => []
  | _, [] => []
  | fuel + 1, l => l.take k :: chunksAux k fuel (l.drop k)

def chunks (k : Nat) (l : List Nat) : List (List Nat) :=
  chunksAux k l.length l

/-- Extend the (reversed) message schedule by `n` further words; the
head of the accumulator is the most recent word. -/
def extendScheduleAux : Nat → List Nat → List Nat
  | 0, ws => ws
  | n + 1, ws =>
      extendScheduleAux n
        (w32 (smallSigma1 (ws.getD 1 0) + ws.getD 6 0 +
              smallSigma0 (ws.getD 14 0) + ws.getD 15 0) :: ws)

/-- The 64-word message schedule of one 64-byte block. -/
def schedule (block : List Nat) : List Nat :=
  (extendScheduleAux 48 ((chunks 4 block).map wordOfBytes).reverse).reverse

/-- Compress one 64-byte block into the running state. -/
def processBlock (st : Sha256State) (block : List Nat) : Sha256State :=
  let fin := (List.zip shaK (schedule block)).foldl
    (fun s kw => shaRound s kw.1 kw.2) st
  ⟨w32 (st.a + fin.a), w32 (st.b + fin.b), w32 (st.c + fin.c),
   w32 (st.d + fin.d), w32 (st.e + fin.e), w32 (st.f + fin.f),
   w32 (st.g + fin.g), w32 (st.h + fin.h)⟩

/-- SHA-256 padding: append `0x80`, zeros to 56 mod 64, then the
bit-length as eight big-endian bytes. -/
def shaPad (msg : List Nat) : List Nat :=
  let len := msg.length
  let zeros := (119 - len % 64) % 64
  let bits := len * 8
  msg ++ 0x80 :: List.replicate zeros 0 ++
    [(bits >>> 56) % 256, (bits >>> 48) % 256, (bits >>> 40) % 256,
     (bits >>> 32) % 256, (bits >>> 24) % 256, (bits >>> 16) % 256,
     (bits >>> 8) % 256, bits % 256]

/-- Big-endian bytes of a 32-bit word. -/
def wordBytes (w : Nat) : List Nat :=
  [(w >>> 24) % 256, (w >>> 16) % 256, (w >>> 8) % 256, w % 256]

/-- SHA-256 of a byte list: the 32-byte digest. -/
def sha256 (msg : List Nat) : List Nat :=
  let fin := (chunks 64 (shaPad msg)).foldl processBlock shaInit
  wordBytes fin.a ++ wordBytes fin.b ++ wordBytes fin.c ++ wordBytes fin.d ++
    wordBytes fin.e ++ wordBytes fin.f ++ wordBytes fin.g ++ wordBytes fin.h

/-- UTF-8 encoding of one character. -/
def utf8EncodeChar (c : Char) : List Nat :=
  let n := c.toNat
  if n < 128 then [n]
  else if n < 2048 then [192 + n / 64, 128 + n % 64]
  else if n < 65536 then [224 + n / 4096, 128 + (n / 64) % 64, 128 + n % 64]
  else [240 + n / 262144, 128 + (n / 4096) % 64, 128 + (n / 64) % 64,
        128 + n % 64]

/-- UTF-8 bytes of a string. -/
def utf8Bytes (s : String) : List Nat := s.data.flatMap utf8EncodeChar

/-- Hex digits of a natural, as JavaScript `n.toString(16)` renders
them (lowercase, no leading zeros); fuelled structural recursion. -/
def hexDigitsAux : Nat → Nat → List Char
  | 0, n => [hexChar (n % 16)]
  | fuel + 1, n =>
      if n < 16 then [hexChar n]
      else hexDigitsAux fuel (n / 16) ++ [hexChar (n % 16)]

/-- JavaScript `n.toString(16)`. -/
def jsToString16 (n : Nat) : String := String.mk (hexDigitsAux n n)

/-- JavaScript `s.padStart(len, c)`. -/
def jsPadStart (s : String) (len : Nat) (c : Char) : String :=
  String.mk (List.replicate (len - s.length) c) ++ s

/-- Function `calculateFileHash` (src/unnamed/part_002, lines 35-41): SHA-256 of
the file bytes, each digest byte rendered as
`b.toString(16).padStart(2, '0')` and joined. -/
def calculateFileHash (fileBytes : List Nat) : String :=
  String.join ((sha256 fileBytes).map (fun b => jsPadStart (jsToString16 b) 2 '0'))

/-- Hex digest of a string's UTF-8 bytes (the content-hash format used
by the sealing engine). -/
def sha256Hex (s : String) : String := calculateFileHash (utf8Bytes s)

/-! ## Sealing and verification engine

The sealing orchestrator and verifier run in Supabase edge functions
that are not part of this repository; only their clients and the
documentation are in `src/`.  They are therefore modelled from the
spec (sections 3, 4.5, 4.6), with the signing primitive idealized. -/

/-- The sealable subset of a record's fields (spec section 3):
identifier, owner, title, body, event timestamp, optional location. -/
structure SealableContent where
  id : String
  ownerId : String
  title : String
  content : String
  eventTimestamp : String
  location : Option Json
deriving DecidableEq

/-- The sealable fields as a JSON object, optional location included
only when present (spec: selecting only defined optional fields). -/
def sealableFields (c : SealableContent) : Json :=
  .objCons "id" (.str c.id) (.objCons "ownerId" (.str c.ownerId)
    (.objCons "title" (.str c.title) (.objCons "content" (.str c.content)
      (.objCons "eventTimestamp" (.str c.eventTimestamp)
        (match c.location with
         | some l => .objCons "location" l .objNil
         | none => .objNil)))))

/-- Modelled from the spec: `canonicalize` (section 4.1; the server
implementation is outside this repository).  Keys sorted
lexicographically at every nesting level, serialized with no
insignificant whitespace. -/
def canonicalize (c : SealableContent) : String :=
  stringifyCompact (sortKeysRec (sealableFields c))

/-- Modelled from the spec: an ECDSA signature is an external
primitive; it is idealized as the pair of the signed digest and the
signing key version, which makes `verifySignature` sound and complete
for the model. -/
structure EcdsaSignature where
  digestHex : String
  keyVersion : String
deriving DecidableEq

/-- Modelled from the spec: `sign(digest, key)` (section 4.3). -/
def signDigest (digestHex keyVersion : String) : EcdsaSignature :=
  ⟨digestHex, keyVersion⟩

/-- Public key material (spec section 3, KeyMaterial). -/
structure PublicKeyInfo where
  pem : String
  version : String
  algorithm : String
  curve : String
deriving DecidableEq

/-- Modelled from the spec: `verifySignature(digest, signature,
publicKey)` (section 4.3), under the idealized signature. -/
def verifySignature (digestHex : String) (sig : EcdsaSignature)
    (pk : PublicKeyInfo) : Bool :=
  sig.digestHex == digestHex && sig.keyVersion == pk.version

/-- Modelled from the spec: an RFC-3161-style timestamp token carries
the attested digest and the attestation time (section 4.4). -/
structure TimestampProof where
  digestHex : String
  timestamp : String
deriving DecidableEq

/-- Modelled from the spec: `verifyAttestation(proof, digest)`
cross-checks the token's embedded digest (section 4.6, step 3). -/
def verifyAttestation (proof : TimestampProof) (digestHex : String) : Bool :=
  proof.digestHex == digestHex

/-- A sealed truth record, mirroring `TruthRecordResponse` in the
shared type definitions (src/frontend/src/App.tsx types section). -/
structure TruthRecord where
  id : String
  ownerId : String
  title : String
  content : String
  eventTimestamp : String
  sealedTimestamp : String
  contentHash : String
  signature : EcdsaSignature
  version : Nat
  status : String
  sealingVersion : String
  publicKeyVersion : String
  location : Option Json
  timestampProof : Option TimestampProof
deriving DecidableEq

/-- The sealable content of a sealed record. -/
def TruthRecord.sealable (r : TruthRecord) : SealableContent :=
  ⟨r.id, r.ownerId, r.title, r.content, r.eventTimestamp, r.location⟩

/-- Modelled from the spec: the sealing orchestrator (section 4.5):
canonicalize, digest, sign, best-effort attest, assign version
metadata, status `SEALED`.  The client entry point is
`createTruthRecord` (src/frontend/src/services/api.ts, lines 48-71). -/
def createTruthRecord (c : SealableContent) (keyVersion sealedTimestamp : String)
    (proof : Option TimestampProof) : TruthRecord :=
  let digest := sha256Hex (canonicalize c)
  { id := c.id, ownerId := c.ownerId, title := c.title, content := c.content,
    eventTimestamp := c.eventTimestamp, sealedTimestamp := sealedTimestamp,
    contentHash := digest, signature := signDigest digest keyVersion,
    version := 1, status := "SEALED",
    sealingVersion := "v1-sha256-ecdsa-p256",
    publicKeyVersion := keyVersion, location := c.location,
    timestampProof := proof }

/-- The structured verification verdict (src/frontend/src/services/api.ts
lines 106-113, src/unnamed/part_004 lines 25-31): `timestampValid` is
boolean-or-null. -/
structure VerificationVerdict where
  isValid : Bool
  integrityValid : Bool
  signatureValid : Bool
  timestampValid : Option Bool
  message : String
deriving DecidableEq

/-- Resolve a public key version among the trusted keys (spec
section 4.6, step 2). -/
def lookupKey (trusted : List PublicKeyInfo) (version : String) :
    Option PublicKeyInfo :=
  trusted.find? (fun pk => pk.version == version)

/-- Modelled from the spec: the verifier algorithm (section 4.6): the
digest is recomputed from the record's own sealable content, the
signature is checked over the recomputed digest against the resolved
trusted key, the timestamp proof is checked only when present, and
`isValid = integrityValid AND signatureValid`. -/
def verifyRecord (r : TruthRecord) (trusted : List PublicKeyInfo) :
    VerificationVerdict :=
  let recomputed := sha256Hex (canonicalize r.sealable)
  let integrityValid := recomputed == r.contentHash
  let signatureValid :=
    match lookupKey trusted r.publicKeyVersion with
    | none => false
    | some pk => verifySignature recomputed r.signature pk
  let timestampValid := r.timestampProof.map (fun p => verifyAttestation p recomputed)
  { isValid := integrityValid && signatureValid,
    integrityValid := integrityValid,
    signatureValid := signatureValid,
    timestampValid := timestampValid,
    message := if integrityValid && signatureValid
      then "Record is valid" else "Record verification failed" }

/-! ## The public verification page (src/unnamed/part_004) -/

/-- The object the page passes to `JSON.stringify` as the hash
preimage (src/unnamed/part_004, lines 370-378): insertion order `id`,
`ownerId`, `title`, `content`, `eventTimestamp`, then `location` when
present. -/
def displayedSealableObj (r : TruthRecord) : Json :=
  Json.objCons "id" (.str r.id) (.objCons "ownerId" (.str r.ownerId)
    (.objCons "title" (.str r.title) (.objCons "content" (.str r.content)
      (.objCons "eventTimestamp" (.str r.eventTimestamp)
        (match r.location with
         | some l => .objCons "location" l .objNil
         | none => .objNil)))))

/-- The JSON text displayed as the hash preimage:
`JSON.stringify(obj, null, 2)` (src/unnamed/part_004, line 370). -/
def displayedSealableJson (r : TruthRecord) : String :=
  stringifyPretty (displayedSealableObj r)

/-- A value thrown by JavaScript: an `Error` with its message, or any
other thrown value. -/
inductive JsThrown where
  | jsError (msg : String)
  | otherValue
deriving DecidableEq

/-- Handler `handleVerify` (src/unnamed/part_004, lines 74-100), as a function
of the settled `verifyRecord(recordId)` call: a successful result is
copied field by field into the displayed verdict; any thrown error is
folded into an all-false verdict with `timestampValid` null. -/
def handleVerify (outcome : Except JsThrown VerificationVerdict) :
    VerificationVerdict :=
  match outcome with
  | .ok result =>
      { isValid := result.isValid,
        integrityValid := result.integrityValid,
        signatureValid := result.signatureValid,
        timestampValid := result.timestampValid,
        message := result.message }
  | .error err =>
      { isValid := false,
        integrityValid := false,
        signatureValid := false,
        timestampValid := none,
        message :=
          match err with
          | .jsError m => m
          | .otherValue => "Verification failed" }

/-! ## The fetch wrappers (src/frontend/src/services/api.ts) -/

/-- The envelope `ApiResponse<T>` of the shared type definitions:
`data`, `error` and `message` are each optional.  `none` models a
JavaScript absent (`undefined`/`null`) field. -/
structure ApiResponseBody (α : Type) where
  data : Option α
  error : Option String
  message : Option String
deriving DecidableEq

/-- An HTTP response as the wrappers consume it: the `ok` flag, the
numeric status, and the JSON body (`none` when `response.json()`
rejects because the body is not valid JSON). -/
structure HttpResponse (α : Type) where
  ok : Bool
  status : Nat
  body : Option (ApiResponseBody α)
deriving DecidableEq

/-- JavaScript truthiness of an optional string: absent and empty
strings are falsy. -/
def truthyStr : Option String → Option String
  | some s => if s = "" then none else some s
  | none => none

/-- The thrown-message computation of every api.ts wrapper's non-ok
branch: `errorData.error || errorData.message ||
\x60HTTP error! status: [status]\x60`, where `errorData` is the parsed
body or `\x7b\x7d` when parsing fails. -/
def apiErrorMessage {α : Type} (resp : HttpResponse α) : String :=
  ((truthyStr (resp.body.bind ApiResponseBody.error)).orElse
    (fun _ => truthyStr (resp.body.bind ApiResponseBody.message))).getD
      ("HTTP error! status: " ++ toString resp.status)

/-- Outcome of one wrapper call: resolved with a payload, rejected
with a thrown `Error` message, or rejected because `response.json()`
itself failed on an ok response. -/
inductive ApiOutcome (α : Type) where
  | resolved (payload : α)
  | thrown (msg : String)
  | jsonRejected
deriving DecidableEq

/-- The shared control flow of `createTruthRecord`, `getTruthRecord`,
`verifyRecord`, `getPublicKey`, `getVerificationBundle`,
`createMemoryRecord`, `getMemoryRecord`, `updateMemoryRecord`,
`uploadFile` and `uploadMultipleFiles` in api.ts: throw on non-ok,
throw `Invalid response: missing data` when the ok body lacks `data`,
otherwise resolve with `result.data`. -/
def apiFetchData {α : Type} (resp : HttpResponse α) : ApiOutcome α :=
  if resp.ok = false then .thrown (apiErrorMessage resp)
  else
    match resp.body with
    | none => .jsonRejected
    | some result =>
        match result.data with
        | none => .thrown "Invalid response: missing data"
        | some d => .resolved d

/-- Wrapper `listMemoryRecords` (api.ts, lines 265-293): same checks, but the
whole body (which carries `data` and `meta`) is returned. -/
def apiFetchWhole {α : Type} (resp : HttpResponse α) :
    ApiOutcome (ApiResponseBody α) :=
  if resp.ok = false then .thrown (apiErrorMessage resp)
  else
    match resp.body with
    | none => .jsonRejected
    | some result =>
        match result.data with
        | none => .thrown "Invalid response: missing data"
        | some _ => .resolved result

/-! ## The edge API service (src/frontend/src/services/api-edge.ts) -/

/-- The parsed-or-substituted error body of an api-edge wrapper:
`await response.json().catch(() => (\x7b error: 'Unknown error' \x7d))`. -/
def edgeBodyOrFallback {α : Type} (resp : HttpResponse α) : ApiResponseBody α :=
  resp.body.getD { data := none, error := some "Unknown error", message := none }

/-- The thrown-message computation of an api-edge non-ok branch:
`error.error || \x60HTTP [status]\x60`. -/
def edgeErrorMessage {α : Type} (resp : HttpResponse α) : String :=
  (truthyStr (edgeBodyOrFallback resp).error).getD
    ("HTTP " ++ toString resp.status)

/-- Wrapper `getTruthRecord` (api-edge.ts, lines 78-94): a 404 throws exactly
`Record not found` before the body is read; any other non-ok response
throws `edgeErrorMessage`; an ok response resolves with `result.data`
(unchecked, hence an optional payload). -/
def edgeGetTruthRecord {α : Type} (resp : HttpResponse α) :
    ApiOutcome (Option α) :=
  if resp.ok = false then
    if resp.status = 404 then .thrown "Record not found"
    else .thrown (edgeErrorMessage resp)
  else
    match resp.body with
    | none => .jsonRejected
    | some result => .resolved result.data

/-! ## The record-creation form (src/frontend/src/components/CreateRecordForm.tsx) -/

/-- The form's text state (title, content, event timestamp,
description, tags are all strings in the component state). -/
structure FormState where
  title : String
  content : String
  eventTimestamp : String
  description : String
  tags : String
deriving DecidableEq

/-- JavaScript whitespace as `String.prototype.trim` strips it (space,
tab, line feed, carriage return, vertical tab, form feed). -/
def isJsSpace (c : Char) : Bool :=
  c.toNat = 32 || c.toNat = 9 || c.toNat = 10 || c.toNat = 13 ||
    c.toNat = 11 || c.toNat = 12

/-- JavaScript `s.trim()`: strip leading and trailing whitespace. -/
def jsTrim (s : String) : String :=
  String.mk (((s.data.dropWhile isJsSpace).reverse.dropWhile isJsSpace).reverse)

/-- The `title` validation of `validate` (lines 69-73). -/
def titleError (f : FormState) : Option String :=
  if jsTrim f.title = "" then some "Title is required"
  else if f.title.length > 500 then some "Title must be 500 characters or less"
  else none

/-- The `content` validation of `validate` (lines 75-79). -/
def contentError (f : FormState) : Option String :=
  if jsTrim f.content = "" then some "Content is required"
  else if f.content.length > 10000000 then
    some "Content must be 10,000,000 characters or less"
  else none

/-- The `eventTimestamp` validation of `validate` (lines 81-83). -/
def eventTimestampError (f : FormState) : Option String :=
  if f.eventTimestamp = "" then some "Event timestamp is required"
  else none

/-- Predicate `validate` (lines 66-87): true exactly when no error was recorded. -/
def validateForm (f : FormState) : Bool :=
  (titleError f).isNone && (contentError f).isNone &&
    (eventTimestampError f).isNone

/-- The payload `handleSubmit` passes to `onSubmit` (lines 115-122).
The `new Date(...).toISOString()` conversion is a browser built-in and
is carried through as the raw `datetime-local` value. -/
structure SubmittedRecordData where
  title : String
  content : String
  eventTimestampLocal : String
  description : Option String
  tags : Option (List String)
deriving DecidableEq

/-- The tag parsing of `handleSubmit` (lines 100-102): split on commas,
trim, drop falsy (empty) entries. -/
def parseTags (s : String) : List String :=
  if s = "" then []
  else ((s.splitOn ",").map jsTrim).filter (fun t => t ≠ "")

/-- Handler `handleSubmit` (lines 89-123) as a function of the form state:
`none` when validation blocks submission, otherwise the exact payload
handed to `onSubmit`. -/
def handleSubmit (f : FormState) : Option SubmittedRecordData :=
  if validateForm f = false then none
  else
    some
      { title := jsTrim f.title,
        content := jsTrim f.content,
        eventTimestampLocal := f.eventTimestamp,
        description :=
          if jsTrim f.description = "" then none
          else some (jsTrim f.description),
        tags :=
          if (parseTags f.tags).length > 0 then some (parseTags f.tags)
          else none }

/-! ## The file-upload component (src/unnamed/part_002) -/

/-- A browser `File` as the component reads it: name, MIME type
(`file.type`), byte size, and content bytes. -/
structure JsFile where
  name : String
  mimeType : String
  size : Nat
  bytes : List Nat
deriving DecidableEq

/-- The `FileWithHash` entry the component builds for each accepted
file (lines 101-107; the browser-only `preview` data URL is omitted). -/
structure FileWithHash where
  file : JsFile
  hash : String
  uploadProgress : Nat
  uploaded : Bool
deriving DecidableEq

/-- The per-file validation and processing inside `processFiles`'s
`Promise.all` (lines 84-108): size check, accepted-type check, then
hash computation.  The size message's megabyte figure uses natural
division in place of JavaScript float division. -/
def processOneFile (maxSize : Nat) (acceptedTypes : Option (List String))
    (f : JsFile) : Except String FileWithHash :=
  if maxSize < f.size then
    .error (f.name ++ " exceeds maximum size of " ++
      toString (maxSize / 1024 / 1024) ++ "MB")
  else if (match acceptedTypes with
           | some ts => !(ts.contains f.mimeType)
           | none => false) then
    .error (f.name ++ " has unsupported file type")
  else
    .ok { file := f, hash := calculateFileHash f.bytes,
          uploadProgress := 0, uploaded := false }

/-- The settled `Promise.all` over the batch: the processed entries in
batch order, or the first rejection. -/
def processBatch (maxSize : Nat) (acceptedTypes : Option (List String)) :
    List JsFile → Except String (List FileWithHash)
  | [] => .ok []
  | f :: rest =>
      match processOneFile maxSize acceptedTypes f with
      | .error e => .error e
      | .ok x =>
          match processBatch maxSize acceptedTypes rest with
          | .error e => .error e
          | .ok xs => .ok (x :: xs)

/-- `processFiles` (lines 70-119) as a function of the current file
list and the incoming batch: `some newFiles` is the single
`onFilesChange` call, `none` means the file list was left unchanged
(count exceeded, or some file rejected and the error alerted). -/
def processFiles (files : List FileWithHash) (batch : List JsFile)
    (maxFiles maxSize : Nat) (acceptedTypes : Option (List String)) :
    Option (List FileWithHash) :=
  if maxFiles < files.length + batch.length then none
  else
    match processBatch maxSize acceptedTypes batch with
    | .error _ => none
    | .ok processed => some (files ++ processed)

/-- Whether `processOneFile` rejects the file. -/
def fileRejected (maxSize : Nat) (acceptedTypes : Option (List String))
    (f : JsFile) : Bool :=
  decide (maxSize < f.size) ||
    (match acceptedTypes with
     | some ts => !(ts.contains f.mimeType)
     | none => false)

/-! ## The VerificationBundle wire shape
(src/frontend/src/App.tsx, shared type definitions, lines 102-144) -/

/-- Nested `publicKey` object of the bundle: note the `createdAt`
field carried in addition to pem, version, algorithm and curve. -/
structure BundlePublicKey where
  pem : String
  version : String
  algorithm : String
  curve : String
  createdAt : String
deriving DecidableEq

/-- One verification-instruction block: a description and steps. -/
structure InstructionBlock where
  description : String
  steps : List String
deriving DecidableEq

/-- The optional timestamp-verification block, with its optional note. -/
structure TimestampInstructionBlock where
  description : String
  steps : List String
  note : Option String
deriving DecidableEq

/-- The `verificationInstructions` object of the bundle. -/
structure BundleInstructions where
  hashVerification : InstructionBlock
  signatureVerification : InstructionBlock
  timestampVerification : Option TimestampInstructionBlock
deriving DecidableEq

/-- The `guarantees` object of the bundle. -/
structure BundleGuarantees where
  integrity : String
  authenticity : String
  timestamp : String
deriving DecidableEq

/-- The `limitations` object of the bundle. -/
structure BundleLimitations where
  contentTruth : String
  authorship : String
  timestampAccuracy : Option String
deriving DecidableEq

/-- The `VerificationBundle` interface, field for field in declaration
order.  The sealable fields are nested under `sealableContent`, not at
top level. -/
structure VerificationBundle where
  recordId : String
  sealedTimestamp : String
  eventTimestamp : String
  sealingVersion : String
  publicKeyVersion : String
  sealableContent : Json
  contentHash : String
  signature : String
  publicKey : BundlePublicKey
  timestampProof : Option String
  verificationInstructions : BundleInstructions
  guarantees : BundleGuarantees
  limitations : BundleLimitations
deriving DecidableEq

/-- JSON object of an instruction block. -/
def instructionBlockJson (b : InstructionBlock) : Json :=
  .objCons "description" (.str b.description)
    (.objCons "steps" (b.steps.foldr (fun s l => Json.arrCons (.str s) l) .arrNil) .objNil)

/-- JSON object of the timestamp-instruction block. -/
def timestampInstructionBlockJson (b : TimestampInstructionBlock) : Json :=
  .objCons "description" (.str b.description)
    (.objCons "steps" (b.steps.foldr (fun s l => Json.arrCons (.str s) l) .arrNil)
      (match b.note with
       | some n => .objCons "note" (.str n) .objNil
       | none => .objNil))

/-- JSON object of `verificationInstructions`. -/
def bundleInstructionsJson (i : BundleInstructions) : Json :=
  .objCons "hashVerification" (instructionBlockJson i.hashVerification)
    (.objCons "signatureVerification" (instructionBlockJson i.signatureVerification)
      (match i.timestampVerification with
       | some t => .objCons "timestampVerification" (timestampInstructionBlockJson t) .objNil
       | none => .objNil))

/-- JSON object of the nested `publicKey`, in interface order. -/
def bundlePublicKeyJson (pk : BundlePublicKey) : Json :=
  .objCons "pem" (.str pk.pem) (.objCons "version" (.str pk.version)
    (.objCons "algorithm" (.str pk.algorithm) (.objCons "curve" (.str pk.curve)
      (.objCons "createdAt" (.str pk.createdAt) .objNil))))

/-- The serialized wire form of a bundle: every interface field in
declaration order, optional fields present exactly when defined. -/
def bundleJson (b : VerificationBundle) : Json :=
  .objCons "recordId" (.str b.recordId)
    (.objCons "sealedTimestamp" (.str b.sealedTimestamp)
      (.objCons "eventTimestamp" (.str b.eventTimestamp)
        (.objCons "sealingVersion" (.str b.sealingVersion)
          (.objCons "publicKeyVersion" (.str b.publicKeyVersion)
            (.objCons "sealableContent" b.sealableContent
              (.objCons "contentHash" (.str b.contentHash)
                (.objCons "signature" (.str b.signature)
                  (.objCons "publicKey" (bundlePublicKeyJson b.publicKey)
                    ((match b.timestampProof with
                      | some p => Json.objCons "timestampProof" (Json.str p)
                      | none => fun tl => tl)
                      (.objCons "verificationInstructions"
                          (bundleInstructionsJson b.verificationInstructions)
                        (.objCons "guarantees"
                            (.objCons "integrity" (.str b.guarantees.integrity)
                              (.objCons "authenticity" (.str b.guarantees.authenticity)
                                (.objCons "timestamp" (.str b.guarantees.timestamp) .objNil)))
                          (.objCons "limitations"
                              (.objCons "contentTruth" (.str b.limitations.contentTruth)
                                (.objCons "authorship" (.str b.limitations.authorship)
                                  (match b.limitations.timestampAccuracy with
                                   | some t => Json.objCons "timestampAccuracy" (.str t) .objNil
                                   | none => .objNil)))
                            .objNil))))))))))))

/-- The top-level field list the spec's section 6 wire format claims,
written from the spec's words for comparison with the source shape. -/
def specClaimedTopLevelKeys (hasLocation hasProof : Bool) : List String :=
  ["id", "ownerId", "title", "content", "eventTimestamp", "sealedTimestamp",
   "contentHash", "signature", "version", "status", "sealingVersion",
   "publicKeyVersion"] ++
  (if hasLocation then ["location"] else []) ++ ["publicKey"] ++
  (if hasProof then ["timestampProof"] else []) ++
  ["verificationInstructions", "guarantees", "limitations"]

/-- The nested publicKey field list the spec's section 6 claims. -/
def specClaimedPublicKeyKeys : List String :=
  ["pem", "version", "algorithm", "curve"]

/-- The `FileWithHash` entry built for an accepted file, as named by
the `return` object of the `Promise.all` callback. -/
def mkFileEntry (f : JsFile) : FileWithHash :=
  { file := f, hash := calculateFileHash f.bytes,
    uploadProgress := 0, uploaded := false }

/-! ## Concrete sample inputs

Closed inputs used by counterexamples and witnesses; the sample
content is the concrete scenario of spec section 8. -/

/-- The spec's concrete scenario content (section 8). -/
def sampleContent : SealableContent :=
  { id := "r1", ownerId := "u1", title := "T", content := "hello",
    eventTimestamp := "2024-01-15T14:30:00.000Z", location := none }

/-- The sample content sealed with key version `v1`. -/
def sampleRecord : TruthRecord :=
  createTruthRecord sampleContent "v1" "2024-01-16T00:00:00.000Z" none

/-- A trusted key for key version `v1`. -/
def samplePk : PublicKeyInfo :=
  { pem := "PEM", version := "v1", algorithm := "ECDSA", curve := "P-256" }

/-- A timestamp proof over the sample record's digest. -/
def sampleProof : TimestampProof :=
  { digestHex := sampleRecord.contentHash,
    timestamp := "2024-01-16T00:00:00.000Z" }

/-- A form state whose raw title is 501 characters (one letter and 500
trailing spaces) while its trimmed title is the single letter. -/
def overlongTitleForm : FormState :=
  { title := String.mk ('a' :: List.replicate 500 ' '),
    content := "c", eventTimestamp := "2024-01-15T14:30",
    description := "", tags := "" }

/-- A small sample file. -/
def sampleFile : JsFile :=
  { name := "note.txt", mimeType := "text/plain", size := 2,
    bytes := [104, 105] }

/-- A concrete verification bundle (no timestamp proof). -/
def sampleBundle : VerificationBundle :=
  { recordId := "r1",
    sealedTimestamp := "2024-01-16T00:00:00.000Z",
    eventTimestamp := "2024-01-15T14:30:00.000Z",
    sealingVersion := "v1-sha256-ecdsa-p256",
    publicKeyVersion := "v1",
    sealableContent := sealableFields sampleContent,
    contentHash := sampleRecord.contentHash,
    signature := "SIG",
    publicKey := { pem := "PEM", version := "v1", algorithm := "ECDSA",
                   curve := "P-256", createdAt := "2024-01-01T00:00:00.000Z" },
    timestampProof := none,
    verificationInstructions :=
      { hashVerification := { description := "hash", steps := [] },
        signatureVerification := { description := "sig", steps := [] },
        timestampVerification := none },
    guarantees := { integrity := "i", authenticity := "a", timestamp := "t" },
    limitations := { contentTruth := "c", authorship := "a",
                     timestampAccuracy := none } }

/-! ## Helper lemmas -/

/-- String length is the length of the character data. -/
theorem string_length_eq_data (s : String) : s.length = s.data.length := rfl

/-- Character data of an append. -/
theorem string_data_append (a b : String) : (a ++ b).data = a.data ++ b.data := rfl

/-- Character data of a fold of appends. -/
theorem string_foldl_append_data (l : List String) (acc : String) :
    (l.foldl (fun r s => r ++ s) acc).data =
      acc.data ++ (l.map String.data).flatten := by
  induction l generalizing acc with
  | nil => simp
  | cons a t ih => simp [List.foldl_cons, ih, string_data_append]

/-- Character data of `String.join`. -/
theorem string_join_data (l : List String) :
    (String.join l).data = (l.map String.data).flatten := by
  simp [String.join, string_foldl_append_data]

/-- Every word byte is below 256. -/
theorem wordBytes_lt (w : Nat) : ∀ b ∈ wordBytes w, b < 256 := by
  intro b hb
  simp only [wordBytes, List.mem_cons, List.not_mem_nil, or_false] at hb
  rcases hb with h | h | h | h <;> subst h <;> exact Nat.mod_lt _ (by decide)

/-- The SHA-256 digest has 32 bytes. -/
theorem sha256_length (msg : List Nat) : (sha256 msg).length = 32 := by
  simp [sha256, wordBytes]

/-- Every SHA-256 digest byte is below 256. -/
theorem sha256_bytes_lt (msg : List Nat) : ∀ b ∈ sha256 msg, b < 256 := by
  intro b hb
  simp only [sha256, List.mem_append] at hb
  rcases hb with ((((((h | h) | h) | h) | h) | h) | h) | h <;>
    exact wordBytes_lt _ _ h

/-- For a byte below 256, the JavaScript rendering
`b.toString(16).padStart(2, '0')` is exactly two lowercase hex
digits. -/
theorem byteHex_spec : ∀ b, b < 256 →
    (jsPadStart (jsToString16 b) 2 '0').length = 2 ∧
    ∀ c ∈ (jsPadStart (jsToString16 b) 2 '0').data,
      c ∈ ("0123456789abcdef").data := by
  decide

/-- Joining the two-digit renderings of a byte list yields a lowercase
hex string of twice the list's length. -/
theorem hexJoin_spec (l : List Nat) (h : ∀ b ∈ l, b < 256) :
    (String.join (l.map (fun b => jsPadStart (jsToString16 b) 2 '0'))).length =
      2 * l.length ∧
    ∀ c ∈ (String.join
        (l.map (fun b => jsPadStart (jsToString16 b) 2 '0'))).data,
      c ∈ ("0123456789abcdef").data := by
  induction l with
  | nil => simp [String.join]
  | cons b t ih =>
      obtain ⟨ihLen, ihHex⟩ := ih (fun x hx => h x (List.mem_cons_of_mem _ hx))
      obtain ⟨hbLen, hbHex⟩ := byteHex_spec b (h b (List.mem_cons_self _ _))
      constructor
      · rw [string_length_eq_data, string_join_data] at ihLen ⊢
        simp only [List.map_cons, List.flatten_cons, List.length_append,
          List.length_cons]
        rw [string_length_eq_data] at hbLen
        omega
      · intro c hc
        rw [string_join_data] at hc ihHex
        simp only [List.map_cons, List.flatten_cons, List.mem_append] at hc
        rcases hc with hc | hc
        · exact hbHex c hc
        · exact ihHex c hc

/-- SHA-256 test vector: the empty message. -/
theorem sha256Hex_empty_vector :
    sha256Hex "" =
      "e3b0c44298fc1c149afbf4c8996fb92427ae41e4649b934ca495991b7852b855" := by
  decide

/-- SHA-256 test vector: the three-byte message `abc`. -/
theorem sha256Hex_abc_vector :
    sha256Hex "abc" =
      "ba7816bf8f01cfea414140de5dae2223b00361a396177a9cb410ff61f20015ad" := by
  decide

/-! ## Claim theorems -/

/-- C7: `calculateFileHash` returns the 256-bit SHA-256 digest of the
file bytes as a lowercase hexadecimal string of exactly 64 characters,
each of the 32 digest bytes rendered as exactly two zero-padded hex
digits. -/
theorem C7_calculateFileHash_hex (fileBytes : List Nat) :
    (sha256 fileBytes).length = 32 ∧
    (calculateFileHash fileBytes).length = 64 ∧
    (∀ c ∈ (calculateFileHash fileBytes).data, c ∈ ("0123456789abcdef").data) ∧
    (∀ b ∈ sha256 fileBytes, (jsPadStart (jsToString16 b) 2 '0').length = 2) ∧
    calculateFileHash fileBytes =
      String.join ((sha256 fileBytes).map
        (fun b => jsPadStart (jsToString16 b) 2 '0')) := by
  obtain ⟨hLen, hHex⟩ := hexJoin_spec (sha256 fileBytes) (sha256_bytes_lt fileBytes)
  refine ⟨sha256_length fileBytes, ?_, ?_, ?_, rfl⟩
  · show (String.join ((sha256 fileBytes).map
        (fun b => jsPadStart (jsToString16 b) 2 '0'))).length = 64
    rw [hLen, sha256_length]
  · exact hHex
  · intro b hb
    exact (byteHex_spec b (sha256_bytes_lt fileBytes b hb)).1

/-- C5: any error thrown while the verification page awaits
`verifyRecord` is folded by `handleVerify` into a structured verdict:
all validity flags false, `timestampValid` null, and the message taken
from the thrown `Error` (or the fixed fallback text). -/
theorem C5_handleVerify_folds_errors (e : JsThrown) :
    (handleVerify (Except.error e)).isValid = false ∧
    (handleVerify (Except.error e)).integrityValid = false ∧
    (handleVerify (Except.error e)).signatureValid = false ∧
    (handleVerify (Except.error e)).timestampValid = none ∧
    (handleVerify (Except.error e)).message =
      (match e with
       | .jsError m => m
       | .otherValue => "Verification failed") := by
  cases e <;> simp [handleVerify]

/-- C10: every api.ts wrapper either resolves with a present `data`
payload or throws: a non-ok response throws the body's `error` or
`message` field with the `HTTP error! status:` fallback, and an ok
body lacking `data` throws exactly `Invalid response: missing data`;
the whole-body variant additionally only resolves bodies whose `data`
is present. -/
theorem C10_api_resolves_data_or_throws (α : Type) (resp : HttpResponse α) :
    (resp.ok = false →
      apiFetchData resp = .thrown (apiErrorMessage resp) ∧
      apiFetchWhole resp = .thrown (apiErrorMessage resp)) ∧
    (resp.ok = false → resp.body = none →
      apiErrorMessage resp = "HTTP error! status: " ++ toString resp.status) ∧
    (∀ d, apiFetchData resp = ApiOutcome.resolved d →
      resp.body.bind ApiResponseBody.data = some d) ∧
    (resp.ok = true → ∀ b, resp.body = some b → b.data = none →
      apiFetchData resp = .thrown "Invalid response: missing data" ∧
      apiFetchWhole resp = .thrown "Invalid response: missing data") ∧
    (∀ w, apiFetchWhole resp = ApiOutcome.resolved w → w.data.isSome = true) := by
  obtain ⟨ok, status, body⟩ := resp
  refine ⟨?_, ?_, ?_, ?_, ?_⟩
  · intro h
    subst h
    exact ⟨rfl, rfl⟩
  · intro h hb
    subst h; subst hb
    rfl
  · intro d hd
    cases ok with
    | false => simp [apiFetchData] at hd
    | true =>
        cases body with
        | none => simp [apiFetchData] at hd
        | some b =>
            cases hdata : b.data with
            | none => simp [apiFetchData, hdata] at hd
            | some x =>
                simp only [apiFetchData, hdata] at hd
                cases hd
                simp [hdata]
  · intro h b hb hdata
    subst h; subst hb
    simp [apiFetchData, apiFetchWhole, hdata]
  · intro w hw
    cases ok with
    | false => simp [apiFetchWhole] at hw
    | true =>
        cases body with
        | none => simp [apiFetchWhole] at hw
        | some b =>
            cases hdata : b.data with
            | none => simp [apiFetchWhole, hdata] at hw
            | some x =>
                simp only [apiFetchWhole, hdata] at hw
                cases hw
                simp [hdata]

/-- C10 witness: a concrete non-ok response with an unparseable body
throws the status fallback message. -/
theorem C10_api_witness :
    apiFetchData (⟨false, 500, none⟩ : HttpResponse Unit) =
      ApiOutcome.thrown (apiErrorMessage (⟨false, 500, none⟩ : HttpResponse Unit)) ∧
    apiErrorMessage (⟨false, 500, none⟩ : HttpResponse Unit) =
      "HTTP error! status: 500" :=
  ⟨((C10_api_resolves_data_or_throws Unit ⟨false, 500, none⟩).1 rfl).1,
   (C10_api_resolves_data_or_throws Unit ⟨false, 500, none⟩).2.1 rfl rfl⟩

/-- C8 counterexample: a non-ok, non-404 response whose body is not
parseable JSON makes `getTruthRecord` in api-edge throw
`Unknown error`, which neither comes from a body `error` field (there
is no parsed body) nor is the `HTTP [status]` fallback, contrary to
the claim's two-case description. -/
theorem C8_claim_counterexample :
    edgeGetTruthRecord (⟨false, 500, none⟩ : HttpResponse Unit) =
      ApiOutcome.thrown "Unknown error" ∧
    (⟨false, 500, none⟩ : HttpResponse Unit).body = none ∧
    ("Unknown error" : String) ≠
      "HTTP " ++ toString (⟨false, 500, none⟩ : HttpResponse Unit).status := by
  refine ⟨rfl, rfl, ?_⟩
  decide

/-- C8 amended: `getTruthRecord` in api-edge throws exactly
`Record not found` on a 404 before reading the body; any other non-ok
response with a parseable body throws its truthy `error` field or
falls back to `HTTP [status]`; a non-parseable body yields
`Unknown error`. -/
theorem C8_edge_not_found_distinguished (α : Type) (resp : HttpResponse α)
    (h : resp.ok = false) :
    (resp.status = 404 →
      edgeGetTruthRecord resp = .thrown "Record not found") ∧
    (resp.status ≠ 404 → ∀ b, resp.body = some b →
      edgeGetTruthRecord resp =
        .thrown ((truthyStr b.error).getD ("HTTP " ++ toString resp.status))) ∧
    (resp.status ≠ 404 → resp.body = none →
      edgeGetTruthRecord resp = .thrown "Unknown error") := by
  obtain ⟨ok, status, body⟩ := resp
  simp only at h
  subst h
  refine ⟨?_, ?_, ?_⟩
  · intro h404
    have h404x : status = 404 := h404
    subst h404x
    rfl
  · intro h404 b hb
    subst hb
    simp [edgeGetTruthRecord, edgeErrorMessage, edgeBodyOrFallback, h404]
  · intro h404 hb
    subst hb
    simp [edgeGetTruthRecord, edgeErrorMessage, edgeBodyOrFallback, truthyStr,
      h404]

/-- C8 witness: a concrete 404 response throws `Record not found`. -/
theorem C8_edge_witness :
    edgeGetTruthRecord (⟨false, 404, none⟩ : HttpResponse Unit) =
      ApiOutcome.thrown "Record not found" :=
  (C8_edge_not_found_distinguished Unit ⟨false, 404, none⟩ rfl).1 rfl

/-- C4: when a record carries no timestamp proof, the verifier's
verdict has `timestampValid = none` (the `Option Bool` null, not
`some false`), and `isValid` does not depend on the proof field at
all. -/
theorem C4_absent_proof_gives_null (r : TruthRecord)
    (trusted : List PublicKeyInfo) (h : r.timestampProof = none) :
    (verifyRecord r trusted).timestampValid = none ∧
    ∀ p, (verifyRecord { r with timestampProof := p } trusted).isValid =
      (verifyRecord r trusted).isValid := by
  constructor
  · simp [verifyRecord, h]
  · intro p
    rfl

/-- C4 witness: the sample record (sealed without attestation) yields
a null `timestampValid`, and attaching a proof leaves `isValid`
unchanged. -/
theorem C4_absent_proof_witness :
    (verifyRecord sampleRecord [samplePk]).timestampValid = none ∧
    (verifyRecord { sampleRecord with timestampProof := some sampleProof }
        [samplePk]).isValid =
      (verifyRecord sampleRecord [samplePk]).isValid :=
  ⟨(C4_absent_proof_gives_null sampleRecord [samplePk] rfl).1,
   (C4_absent_proof_gives_null sampleRecord [samplePk] rfl).2 (some sampleProof)⟩

/-- C2: sealing any sealable content and verifying the resulting
record against a trusted-key list that resolves the sealing key
version yields a verdict with `isValid = true`. -/
theorem C2_seal_then_verify_valid (c : SealableContent) (kv ts : String)
    (p : Option TimestampProof) (trusted : List PublicKeyInfo)
    (h : (lookupKey trusted kv).isSome = true) :
    (verifyRecord (createTruthRecord c kv ts p) trusted).isValid = true := by
  obtain ⟨pk, hpk⟩ := Option.isSome_iff_exists.mp h
  have hpk' : List.find? (fun k => k.version == kv) trusted = some pk := hpk
  have hv : pk.version = kv := by
    have hb := List.find?_some hpk'
    exact eq_of_beq hb
  subst hv
  simp [verifyRecord, createTruthRecord, TruthRecord.sealable, lookupKey,
    hpk', verifySignature, signDigest]

/-- C2 witness: the spec's concrete scenario content sealed under key
version `v1` verifies against the sample trusted key. -/
theorem C2_seal_then_verify_witness :
    (verifyRecord (createTruthRecord sampleContent "v1"
        "2024-01-16T00:00:00.000Z" none) [samplePk]).isValid = true :=
  C2_seal_then_verify_valid sampleContent "v1" "2024-01-16T00:00:00.000Z" none
    [samplePk] (by decide)

/-- C1 counterexample: for the sample sealed record, hashing the JSON
text the page actually displays (pretty-printed, insertion-order keys)
does not reproduce the stored content hash, and that text differs from
the key-sorted whitespace-free serialization of the same object. -/
theorem C1_claim_counterexample :
    sha256Hex (displayedSealableJson sampleRecord) ≠ sampleRecord.contentHash ∧
    displayedSealableJson sampleRecord ≠
      stringifyCompact (sortKeysRec (displayedSealableObj sampleRecord)) := by
  constructor
  · decide
  · decide

/-- C1 amended: the displayed preimage object carries its keys in
insertion order (`id`, `ownerId`, `title`, `content`,
`eventTimestamp`, then `location` when present), and re-serializing
that same object with keys sorted lexicographically and no
insignificant whitespace produces the canonical preimage whose SHA-256
hex digest is the stored content hash. -/
theorem C1_displayed_object_recanonicalizes (c : SealableContent)
    (kv ts : String) (p : Option TimestampProof) :
    sha256Hex (stringifyCompact (sortKeysRec
        (displayedSealableObj (createTruthRecord c kv ts p)))) =
      (createTruthRecord c kv ts p).contentHash ∧
    (c.location = none →
      topKeys (displayedSealableObj (createTruthRecord c kv ts p)) =
        ["id", "ownerId", "title", "content", "eventTimestamp"]) := by
  constructor
  · rfl
  · intro h
    simp [displayedSealableObj, createTruthRecord, topKeys, h]

/-- C1 witness: the sample record's displayed object, re-serialized
sorted and minified, hashes to the stored content hash, and its
displayed key order is the insertion order. -/
theorem C1_displayed_object_witness :
    sha256Hex (stringifyCompact (sortKeysRec
        (displayedSealableObj sampleRecord))) = sampleRecord.contentHash ∧
    topKeys (displayedSealableObj sampleRecord) =
      ["id", "ownerId", "title", "content", "eventTimestamp"] :=
  ⟨(C1_displayed_object_recanonicalizes sampleContent "v1"
      "2024-01-16T00:00:00.000Z" none).1,
   (C1_displayed_object_recanonicalizes sampleContent "v1"
      "2024-01-16T00:00:00.000Z" none).2 rfl⟩

/-- C3 counterexample: the source `VerificationBundle` shape disagrees
with the spec's field-exact wire format at a concrete bundle: the spec
requires top-level `ownerId` (with the sealable fields flattened to
top level) and a four-field `publicKey`, while the source bundle has
`recordId`, nests the sealable fields under `sealableContent`, and
carries a fifth `createdAt` key inside `publicKey`. -/
theorem C3_claim_counterexample :
    ("ownerId" ∈ specClaimedTopLevelKeys false false ∧
      "ownerId" ∉ topKeys (bundleJson sampleBundle)) ∧
    ("id" ∉ topKeys (bundleJson sampleBundle)) ∧
    ("recordId" ∈ topKeys (bundleJson sampleBundle) ∧
      "recordId" ∉ specClaimedTopLevelKeys false false) ∧
    topKeys (bundlePublicKeyJson sampleBundle.publicKey) ≠
      specClaimedPublicKeyKeys := by
  decide

/-- C3 amended: every `VerificationBundle` serializes with exactly the
top-level fields `recordId`, `sealedTimestamp`, `eventTimestamp`,
`sealingVersion`, `publicKeyVersion`, `sealableContent`, `contentHash`,
`signature`, `publicKey`, optional `timestampProof`,
`verificationInstructions`, `guarantees`, `limitations` (in that
order), and its `publicKey` object has exactly the fields `pem`,
`version`, `algorithm`, `curve`, `createdAt`. -/
theorem C3_bundle_shape (b : VerificationBundle) :
    topKeys (bundleJson b) =
      ["recordId", "sealedTimestamp", "eventTimestamp", "sealingVersion",
       "publicKeyVersion", "sealableContent", "contentHash", "signature",
       "publicKey"] ++
      (match b.timestampProof with
       | some _ => ["timestampProof"]
       | none => []) ++
      ["verificationInstructions", "guarantees", "limitations"] ∧
    topKeys (bundlePublicKeyJson b.publicKey) =
      ["pem", "version", "algorithm", "curve", "createdAt"] := by
  obtain ⟨rid, st, et, sv, pkv, sc, ch, sg, pk, tp, vi, gu, li⟩ := b
  cases tp <;> exact ⟨rfl, rfl⟩

/-- C6 counterexample: a form whose raw title is 501 characters but
whose trimmed title is one character (with valid content and
timestamp) satisfies the claim's trimmed-length conditions, yet
`handleSubmit` does not invoke `onSubmit`: the 500-character limit is
checked on the untrimmed title. -/
theorem C6_claim_counterexample :
    jsTrim overlongTitleForm.title ≠ "" ∧
    (jsTrim overlongTitleForm.title).length ≤ 500 ∧
    jsTrim overlongTitleForm.content ≠ "" ∧
    (jsTrim overlongTitleForm.content).length ≤ 10000000 ∧
    overlongTitleForm.eventTimestamp ≠ "" ∧
    handleSubmit overlongTitleForm = none := by
  refine ⟨by decide, by decide, by decide, by decide, by decide, by decide⟩

/-- The validation predicate in terms of the field contents: trimmed
non-emptiness, raw-length limits, non-empty timestamp. -/
theorem validateForm_iff (f : FormState) :
    validateForm f = true ↔
      (jsTrim f.title ≠ "" ∧ f.title.length ≤ 500 ∧ jsTrim f.content ≠ "" ∧
       f.content.length ≤ 10000000 ∧ f.eventTimestamp ≠ "") := by
  unfold validateForm titleError contentError eventTimestampError
  split_ifs <;> simp_all

/-- C6 amended: `handleSubmit` invokes `onSubmit` if and only if the
trimmed title is non-empty, the raw title is at most 500 characters,
the trimmed content is non-empty, the raw content is at most
10,000,000 characters, and the event timestamp is non-empty — the
length ceilings are enforced on the untrimmed values. -/
theorem C6_submit_iff_valid (f : FormState) :
    (handleSubmit f).isSome = true ↔
      (jsTrim f.title ≠ "" ∧ f.title.length ≤ 500 ∧ jsTrim f.content ≠ "" ∧
       f.content.length ≤ 10000000 ∧ f.eventTimestamp ≠ "") := by
  rw [← validateForm_iff]
  unfold handleSubmit
  cases hv : validateForm f <;> simp [hv]

/-- A file that passes both per-file checks is processed into its
entry. -/
theorem processOneFile_ok (maxSize : Nat) (acceptedTypes : Option (List String))
    (f : JsFile) (h : fileRejected maxSize acceptedTypes f = false) :
    processOneFile maxSize acceptedTypes f = .ok (mkFileEntry f) := by
  unfold fileRejected at h
  rw [Bool.or_eq_false_iff] at h
  have h1 : ¬ maxSize < f.size := by simpa using h.1
  unfold processOneFile mkFileEntry
  rw [if_neg h1, if_neg (fun hc => Bool.false_ne_true (h.2 ▸ hc))]

/-- A file that fails a per-file check makes its processing reject. -/
theorem processOneFile_error (maxSize : Nat)
    (acceptedTypes : Option (List String)) (f : JsFile)
    (h : fileRejected maxSize acceptedTypes f = true) :
    ∃ e, processOneFile maxSize acceptedTypes f = .error e := by
  unfold processOneFile
  by_cases h1 : maxSize < f.size
  · exact ⟨_, by rw [if_pos h1]⟩
  · have hd : decide (maxSize < f.size) = false := by simpa using h1
    unfold fileRejected at h
    rw [hd, Bool.false_or] at h
    exact ⟨_, by rw [if_neg h1, if_pos h]⟩

/-- If every file in the batch passes the checks, the settled batch is
the entry list in batch order. -/
theorem processBatch_ok (maxSize : Nat) (acceptedTypes : Option (List String))
    (batch : List JsFile)
    (h : ∀ f ∈ batch, fileRejected maxSize acceptedTypes f = false) :
    processBatch maxSize acceptedTypes batch = .ok (batch.map mkFileEntry) := by
  induction batch with
  | nil => rfl
  | cons f t ih =>
      have hf := processOneFile_ok maxSize acceptedTypes f
        (h f (List.mem_cons_self _ _))
      have ht := ih (fun g hg => h g (List.mem_cons_of_mem _ hg))
      simp [processBatch, hf, ht]

/-- If some file in the batch fails a check, the settled batch is a
rejection. -/
theorem processBatch_error (maxSize : Nat)
    (acceptedTypes : Option (List String)) (batch : List JsFile)
    (h : batch.any (fileRejected maxSize acceptedTypes) = true) :
    ∃ e, processBatch maxSize acceptedTypes batch = .error e := by
  induction batch with
  | nil => simp at h
  | cons f t ih =>
      by_cases hf : fileRejected maxSize acceptedTypes f = true
      · obtain ⟨e, he⟩ := processOneFile_error maxSize acceptedTypes f hf
        exact ⟨e, by simp [processBatch, he]⟩
      · have hf' : fileRejected maxSize acceptedTypes f = false := by
          simpa using hf
        have ht : t.any (fileRejected maxSize acceptedTypes) = true := by
          simpa [hf'] using h
        obtain ⟨e, he⟩ := ih ht
        refine ⟨e, ?_⟩
        rw [processBatch, processOneFile_ok maxSize acceptedTypes f hf', he]

/-- C9: `processFiles` is all-or-none.  If accepting the batch would
exceed `maxFiles`, or any batch file is oversized or of an unaccepted
type, the file list is left unchanged (`none`: `onFilesChange` is not
called); otherwise `onFilesChange` receives, in one call, the previous
files followed by every batch file in order, each carrying its
computed SHA-256 hash. -/
theorem C9_processFiles_all_or_none (files : List FileWithHash)
    (batch : List JsFile) (maxFiles maxSize : Nat)
    (acceptedTypes : Option (List String)) :
    processFiles files batch maxFiles maxSize acceptedTypes =
      if maxFiles < files.length + batch.length then none
      else if batch.any (fileRejected maxSize acceptedTypes) then none
      else some (files ++ batch.map mkFileEntry) := by
  unfold processFiles
  split_ifs with h1 h2
  · rfl
  · obtain ⟨e, he⟩ := processBatch_error maxSize acceptedTypes batch h2
    simp [he]
  · have h2' : ∀ f ∈ batch, fileRejected maxSize acceptedTypes f = false := by
      intro f hf
      by_contra hc
      exact h2 (List.any_eq_true.mpr ⟨f, hf, by simpa using hc⟩)
    simp [processBatch_ok maxSize acceptedTypes batch h2']
